import Mathlib

/-!
Verification of the point-cloud dataset loaders in `dataloader/pc_dataset.py`.

The file is embedded shallowly:

* numpy arrays are modelled by `NDArray`: a shape (list of dimension sizes)
  together with the flattened element data;
* binary scan files are modelled by the list of their decoded rows
  (`Pt4` for the N x 4 float32 scans, `Pt5` for the N x 5 nuScenes scans);
  float payloads that are only moved around (coordinates, reflectance)
  are kept at an opaque scalar type `α`;
* an HDF5 container (variants `Dense` / `CycleDense`) is modelled by its six
  named channels, flattened row-major (`DenseFrame`); the label channel holds
  integral label ids, so it is typed `List Int` (the float32 round trip of the
  source is assumed exact on these values);
* Python dicts are association lists (`lookupA` / `dictGet`), and a dict whose
  lookups always succeed on its key set (the YAML `learning_map` in the
  label-name helpers) is a key list plus a value function;
* fallible code returns `Except String`, the message naming the Python
  exception that the source raises on that path;
* file reads performed by a constructor are modelled by `Option` inputs
  (`none` meaning the file is missing, so opening it raises
  `FileNotFoundError`), and the data-root directory walk
  (`absoluteFilePaths`) by an oracle `fsWalk : String → List String` giving
  the files found under a directory.
-/

/-- Two's-complement wrap of an integer into the `int32` range,
modelling `astype(np.int32)`. -/
def toInt32 (v : Int) : Int := (v + 2 ^ 31) % 2 ^ 32 - 2 ^ 31

/-- Low 16 bits of an `int32` value, modelling `annotated_data & 0xFFFF`
(for two's-complement integers, bitwise and with `0xFFFF` is the
nonnegative residue modulo 2^16). -/
def mask16 (v : Int) : Nat := (toInt32 v % 65536).toNat

/-- Wrap of a natural number into the `uint8` range, modelling
`astype(np.uint8)`. -/
def toUInt8 (n : Nat) : Nat := n % 256

/-- Element-wise dict lookup, modelling
`np.vectorize(self.learning_map.__getitem__)(annotated_data)`:
a raw id absent from the learning map raises `KeyError` and no partial
result is produced. -/
def mapLabels (lm : Nat → Option Nat) : List Nat → Except String (List Nat)
  | [] => .ok []
  | x :: xs =>
    match lm x with
    | none => .error ("KeyError: " ++ toString x)
    | some v =>
      match mapLabels lm xs with
      | .error e => .error e
      | .ok vs => .ok (v :: vs)

/-- A numpy array: its shape and its flattened (row-major) data. -/
structure NDArray (α : Type) where
  shape : List Nat
  data : List α
deriving DecidableEq

/-- One sample tuple as returned by `__getitem__`: the coordinate array,
the (optional, `CycleDense` omits it) label array, and the optional
reference channel. -/
structure Sample (α : Type) where
  coords : NDArray α
  labels : Option (NDArray Nat)
  ref : Option (NDArray α)
deriving DecidableEq

/-- One row of an N x 4 float32 scan file (x, y, z, reflectance). -/
structure Pt4 (α : Type) where
  x : α
  y : α
  z : α
  r : α
deriving DecidableEq

/-- One row of an N x 5 nuScenes scan file (x, y, z, reflectance, extra). -/
structure Pt5 (α : Type) where
  x : α
  y : α
  z : α
  r : α
  t : α
deriving DecidableEq

/-- The six channels of one HDF5 container, each flattened row-major.
The label channel holds integral label ids. -/
structure DenseFrame (α : Type) where
  sensorX : List α
  sensorY : List α
  sensorZ : List α
  distance : List α
  intensity : List α
  labels : List Int
deriving DecidableEq

/-- Association-list lookup, the semantics of a Python dict read. -/
def lookupA {κ β : Type} [BEq κ] (d : List (κ × β)) (k : κ) : Option β :=
  (d.find? (fun p => p.1 == k)).map Prod.snd

/-- Python dict `__getitem__`: raises `KeyError` when the key is absent. -/
def dictGet {β : Type} (d : List (String × β)) (k : String) : Except String β :=
  match lookupA d k with
  | some v => .ok v
  | none => .error ("KeyError: " ++ k)

/-- The textual enumeration of the registered names, as printed inside the
assertion messages of `register_dataset` and `get_pc_model_class`
(the f-strings interpolate the registry dict). -/
def formatRegistry {α : Type} (registry : List (String × α)) : String :=
  String.intercalate ", " (registry.map (fun p => p.1))

/-- Embedding of `register_dataset(cls, name=None)`: the registry is passed
and returned explicitly instead of being a module global; `clsName` stands
for `cls.__name__`.  A duplicate name fails the `assert` (modelled as an
error result). -/
def register_dataset {α : Type} (registry : List (String × α)) (clsName : String)
    (cls : α) (name : Option String) : Except String (List (String × α) × α) :=
  let n := name.getD clsName
  if (lookupA registry n).isSome then
    .error ("exist class: " ++ formatRegistry registry)
  else
    .ok (registry ++ [(n, cls)], cls)

/-- Embedding of `get_pc_model_class(name)`: an unknown name fails the
`assert` whose message enumerates the registered names. -/
def get_pc_model_class {α : Type} (registry : List (String × α)) (name : String) :
    Except String α :=
  match lookupA registry name with
  | some c => .ok c
  | none => .error ("available class: " ++ formatRegistry registry)

/-- Embedding of `SemKITTI2train_single(label)` on a `uint8` label array:
`remove_ind = label == 0`, `label -= 1` (uint8 wraparound), then the
elements that were 0 are overwritten with 255. -/
def SemKITTI2train_single (label : List Nat) : List Nat :=
  let remove_ind := label.map (fun x => x == 0)
  let dec := label.map (fun x => (x + 255) % 256)
  List.zipWith (fun r v => if r then 255 else v) remove_ind dec

/-- Argument of `SemKITTI2train`: either one label array or a list of them,
mirroring the `isinstance(label, list)` test. -/
inductive LabelArg where
  | single (a : List Nat)
  | batch (l : List (List Nat))
deriving DecidableEq

/-- Embedding of `SemKITTI2train(label)`. -/
def SemKITTI2train : LabelArg → LabelArg
  | .batch l => .batch (l.map SemKITTI2train_single)
  | .single a => .single (SemKITTI2train_single a)

/-- Embedding of `SemKITTI_sk.__getitem__`.  The velodyne file is given as
its N x 4 rows, the companion label file as its decoded `int32` values.
In the test split the label array is fabricated as
`expand_dims(zeros_like(raw_data[:, 0]), 1)`, shape (N, 1); otherwise the
label file is reshaped to (-1, 1), masked to the low 16 bits and mapped
through the learning map.  The tuple is
`(raw_data[:, :3], annotated.astype(uint8))`, plus the 1-D slice
`raw_data[:, 3]` when `return_ref` is set. -/
def SemKITTI_sk_getitem {α : Type} (imageset : String) (return_ref : Bool)
    (lm : Nat → Option Nat) (velodyneFile : List (Pt4 α)) (labelFile : List Int) :
    Except String (Sample α) :=
  let N := velodyneFile.length
  let annE : Except String (NDArray Nat) :=
    if imageset = "test" then
      .ok ⟨[N, 1], List.replicate N 0⟩
    else
      match mapLabels lm (labelFile.map mask16) with
      | .error e => .error e
      | .ok vs => .ok ⟨[labelFile.length, 1], vs.map toUInt8⟩
  match annE with
  | .error e => .error e
  | .ok ann =>
    .ok ⟨⟨[N, 3], velodyneFile.flatMap (fun p => [p.x, p.y, p.z])⟩,
         some ann,
         if return_ref then some ⟨[N], velodyneFile.map Pt4.r⟩ else none⟩

/-- Embedding of `Dense.__getitem__`.  After `dstack`, `transpose(2,0,1)` and
`reshape(6,-1)` the container is the 6 x n matrix whose rows are the
flattened channels of the frame.  In the test split,
`zeros_like(raw_data[:, 0])` takes column 0 of that 6 x n matrix, so the
fabricated label array has shape (6, 1) (and raises `IndexError` when
n = 0); otherwise row 5 is cast to `int32`, reshaped to (-1, 1), masked
and mapped.  The tuple is `(raw_data[:3,:].transpose(1,0),
annotated.astype(uint8))`, plus `raw_data[3, :].reshape(-1,1)` when
`return_ref` is set. -/
def Dense_getitem {α : Type} (imageset : String) (return_ref : Bool)
    (lm : Nat → Option Nat) (f : DenseFrame α) : Except String (Sample α) :=
  let n := f.sensorX.length
  let annE : Except String (NDArray Nat) :=
    if imageset = "test" then
      if n = 0 then .error "IndexError"
      else .ok ⟨[6, 1], List.replicate 6 0⟩
    else
      match mapLabels lm (f.labels.map mask16) with
      | .error e => .error e
      | .ok vs => .ok ⟨[f.labels.length, 1], vs.map toUInt8⟩
  match annE with
  | .error e => .error e
  | .ok ann =>
    .ok ⟨⟨[n, 3], (List.zip f.sensorX (List.zip f.sensorY f.sensorZ)).flatMap
            (fun p => [p.1, p.2.1, p.2.2])⟩,
         some ann,
         if return_ref then some ⟨[f.distance.length, 1], f.distance⟩ else none⟩

/-- Embedding of `CycleDense.__getitem__`.  The label-extraction block of
the source is commented out, so the tuple carries no label element at all
and `imageset` is never consulted: it is `(raw_data[:3,:].transpose(1,0),)`,
plus `raw_data[3, :].reshape(-1,1)` when `return_ref` is set.  No failure
path remains, so the result is a plain `Sample`. -/
def CycleDense_getitem {α : Type} (return_ref : Bool) (f : DenseFrame α) : Sample α :=
  let n := f.sensorX.length
  ⟨⟨[n, 3], (List.zip f.sensorX (List.zip f.sensorY f.sensorZ)).flatMap
      (fun p => [p.1, p.2.1, p.2.2])⟩,
   none,
   if return_ref then some ⟨[f.distance.length, 1], f.distance⟩ else none⟩

/-- Embedding of `SemKITTI_nusc.__getitem__`.  Path resolution through the
nuScenes catalog is abstracted into which file contents are supplied: the
lidarseg label file as its `uint8` values, the point file as its N x 5
rows.  The labels are mapped through the learning map with no 16-bit mask;
the tuple is `(points[:, :3], points_label.astype(uint8))`, plus the 1-D
slice `points[:, 3]` when `return_ref` is set. -/
def SemKITTI_nusc_getitem {α : Type} (return_ref : Bool) (lm : Nat → Option Nat)
    (lidarsegFile : List Nat) (pointsFile : List (Pt5 α)) :
    Except String (Sample α) :=
  match mapLabels lm lidarsegFile with
  | .error e => .error e
  | .ok vs =>
    let N := pointsFile.length
    .ok ⟨⟨[N, 3], pointsFile.flatMap (fun p => [p.x, p.y, p.z])⟩,
         some ⟨[lidarsegFile.length, 1], vs.map toUInt8⟩,
         if return_ref then some ⟨[N], pointsFile.map Pt5.r⟩ else none⟩

/-- Contents of a label-mapping YAML document as consumed by the
constructors: the `learning_map` dict and the `split` dict. -/
structure SplitYaml where
  learning_map : List (Nat × Nat)
  split : List (String × List String)
deriving DecidableEq

/-- The state a constructor stores on the dataset object. -/
structure DatasetState where
  return_ref : Bool
  learning_map : List (Nat × Nat)
  imageset : String
  im_idx : List String
deriving DecidableEq

/-- Python `str.zfill(2)`: pad on the left with zeros to width 2. -/
def zfill2 (s : String) : String :=
  String.mk (List.replicate (2 - s.length) '0') ++ s

/-- Embedding of `SemKITTI_sk.__init__`.  The label-mapping file is opened
and parsed first (`none` models a missing file, raising
`FileNotFoundError`); then the split list is chosen by `imageset`
(`'val'` reads the YAML key `'valid'`), an unrecognized value raising
`Exception('Split must be train/val/test')`; only then is the data root
walked through `fsWalk`.  Omitted optional arguments are `none`:
`imageset` defaults to `'train'` and `return_ref` to `False`. -/
def SemKITTI_sk_init (labelMappingFile : Option SplitYaml)
    (fsWalk : String → List String) (data_path : String)
    (imageset : Option String) (return_ref : Option Bool) :
    Except String DatasetState :=
  match labelMappingFile with
  | none => .error "FileNotFoundError"
  | some y =>
    let iset := imageset.getD "train"
    let splitE :=
      if iset = "train" then dictGet y.split "train"
      else if iset = "val" then dictGet y.split "valid"
      else if iset = "test" then dictGet y.split "test"
      else .error "Split must be train/val/test"
    match splitE with
    | .error e => .error e
    | .ok split =>
      .ok ⟨return_ref.getD false, y.learning_map, iset,
        split.flatMap (fun i_folder =>
          fsWalk (data_path ++ "/" ++ zfill2 i_folder ++ "/velodyne"))⟩

/-- Embedding of `Dense.__init__`: identical to `SemKITTI_sk.__init__`
except that `return_ref` defaults to `True` and the walked directory is
`data_path ++ "/" ++ i_folder` with no `zfill` and no `velodyne` suffix. -/
def Dense_init (labelMappingFile : Option SplitYaml)
    (fsWalk : String → List String) (data_path : String)
    (imageset : Option String) (return_ref : Option Bool) :
    Except String DatasetState :=
  match labelMappingFile with
  | none => .error "FileNotFoundError"
  | some y =>
    let iset := imageset.getD "train"
    let splitE :=
      if iset = "train" then dictGet y.split "train"
      else if iset = "val" then dictGet y.split "valid"
      else if iset = "test" then dictGet y.split "test"
      else .error "Split must be train/val/test"
    match splitE with
    | .error e => .error e
    | .ok split =>
      .ok ⟨return_ref.getD true, y.learning_map, iset,
        split.flatMap (fun i_folder => fsWalk (data_path ++ "/" ++ i_folder))⟩

/-- Embedding of `CycleDense.__init__`: the split key is the concatenation
`imageset ++ clss`, checked against the nine recognized combinations; any
other value raises
`Exception('Split must be train/val/test with class clear/rain/fog')`.
`clss` defaults to `'clear'` and `return_ref` to `True`. -/
def CycleDense_init (labelMappingFile : Option SplitYaml)
    (fsWalk : String → List String) (data_path : String)
    (imageset : Option String) (clss : Option String) (return_ref : Option Bool) :
    Except String DatasetState :=
  match labelMappingFile with
  | none => .error "FileNotFoundError"
  | some y =>
    let iset := imageset.getD "train"
    let key := iset ++ clss.getD "clear"
    let splitE :=
      if key = "trainclear" then dictGet y.split "trainclear"
      else if key = "trainrain" then dictGet y.split "trainrain"
      else if key = "trainfog" then dictGet y.split "trainfog"
      else if key = "valclear" then dictGet y.split "valclear"
      else if key = "valrain" then dictGet y.split "valrain"
      else if key = "valfog" then dictGet y.split "valfog"
      else if key = "testclear" then dictGet y.split "testclear"
      else if key = "testrain" then dictGet y.split "testrain"
      else if key = "testfog" then dictGet y.split "testfog"
      else .error "Split must be train/val/test with class clear/rain/fog"
    match splitE with
    | .error e => .error e
    | .ok split =>
      .ok ⟨return_ref.getD true, y.learning_map, iset,
        split.flatMap (fun i_folder => fsWalk (data_path ++ "/" ++ i_folder))⟩

/-- One record of the pickled nuScenes index. -/
structure NuscInfo where
  lidar_path : String
  token : String
deriving DecidableEq

/-- The state `SemKITTI_nusc.__init__` stores on the dataset object. -/
structure NuscState where
  return_ref : Bool
  learning_map : List (Nat × Nat)
  nusc_infos : List NuscInfo
  data_path : String
deriving DecidableEq

/-- Embedding of `SemKITTI_nusc.__init__`: `imageset` here is the path of a
pickled index file whose `infos` entry is stored verbatim (its decoded
content is the `imagesetFile` input); the label-mapping YAML contributes
only its `learning_map`.  `return_ref` defaults to `False`; no split
validation happens at all. -/
def SemKITTI_nusc_init (imagesetFile : Option (List NuscInfo))
    (labelMappingFile : Option (List (Nat × Nat))) (data_path : String)
    (return_ref : Option Bool) : Except String NuscState :=
  match imagesetFile with
  | none => .error "FileNotFoundError"
  | some infos =>
    match labelMappingFile with
    | none => .error "FileNotFoundError"
    | some lm => .ok ⟨return_ref.getD false, lm, infos, data_path⟩

/-- Python dict assignment `d[k] = v`: overwrite in place when the key is
present, append otherwise. -/
def dictInsert (d : List (Nat × String)) (k : Nat) (v : String) : List (Nat × String) :=
  if (lookupA d k).isSome then
    d.map (fun p => if p.1 = k then (k, v) else p)
  else d ++ [(k, v)]

/-- Embedding of `get_SemKITTI_label_name`.  The YAML `learning_map` dict is
given as its key list `lmKeys` (no duplicates) plus its value function
`lmVal`, and the `labels` dict (raw id to display name) as the function
`labels`.  Keys are iterated as `sorted(keys)[::-1]`, i.e. in descending
order, assigning `name[lmVal i] = labels i`. -/
def get_SemKITTI_label_name (lmKeys : List Nat) (lmVal : Nat → Nat)
    (labels : Nat → String) : List (Nat × String) :=
  ((List.insertionSort (· ≤ ·) lmKeys).reverse).foldl
    (fun d i => dictInsert d (lmVal i) (labels i)) []

/-- Embedding of `get_nuScenes_label_name`: same iteration order, but the
value stored under the mapped id `lmVal i` is `labels_16[lmVal i]` — the
display name of the mapped id, not of the raw id. -/
def get_nuScenes_label_name (lmKeys : List Nat) (lmVal : Nat → Nat)
    (labels16 : Nat → String) : List (Nat × String) :=
  ((List.insertionSort (· ≤ ·) lmKeys).reverse).foldl
    (fun d i => dictInsert d (lmVal i) (labels16 (lmVal i))) []

/-! ### Helper lemmas -/

theorem SemKITTI2train_single_cons (x : Nat) (l : List Nat) :
    SemKITTI2train_single (x :: l) =
      (if x == 0 then 255 else (x + 255) % 256) :: SemKITTI2train_single l := rfl

theorem mapLabels_ok_of_total (lm : Nat → Option Nat) :
    ∀ xs : List Nat, (∀ x ∈ xs, (lm x).isSome) →
      mapLabels lm xs = .ok (xs.map (fun x => (lm x).getD 0)) := by
  intro xs
  induction xs with
  | nil => intro _; rfl
  | cons x xs ih =>
    intro h
    obtain ⟨v, hv⟩ := Option.isSome_iff_exists.mp (h x (List.mem_cons_self x xs))
    have ht := ih (fun a ha => h a (List.mem_cons_of_mem _ ha))
    simp [mapLabels, hv, ht]

theorem mapLabels_error_of_missing (lm : Nat → Option Nat) :
    ∀ xs : List Nat, (∃ x ∈ xs, lm x = none) →
      ∃ e, mapLabels lm xs = .error e := by
  intro xs
  induction xs with
  | nil => rintro ⟨x, hx, -⟩; cases hx
  | cons x xs ih =>
    rintro ⟨a, ha, hna⟩
    rcases List.mem_cons.mp ha with rfl | hmem
    · exact ⟨"KeyError: " ++ toString a, by simp [mapLabels, hna]⟩
    · cases hvx : lm x with
      | none => exact ⟨"KeyError: " ++ toString x, by simp [mapLabels, hvx]⟩
      | some v =>
        obtain ⟨e, he⟩ := ih ⟨a, hmem, hna⟩
        exact ⟨e, by simp [mapLabels, hvx, he]⟩

theorem length_flatMap3 {α β : Type} (g1 g2 g3 : β → α) (l : List β) :
    (l.flatMap (fun p => [g1 p, g2 p, g3 p])).length = 3 * l.length := by
  induction l with
  | nil => rfl
  | cons p l ih =>
    simp only [List.flatMap_cons, List.length_append, ih, List.length_cons,
      List.length_nil]
    omega

theorem lookupA_cons {κ β : Type} [BEq κ] [LawfulBEq κ] [DecidableEq κ]
    (p : κ × β) (d : List (κ × β)) (k : κ) :
    lookupA (p :: d) k = if p.1 = k then some p.2 else lookupA d k := by
  by_cases h : p.1 = k
  · simp [lookupA, List.find?_cons_of_pos _ (by simp [h] : (p.1 == k) = true), h]
  · simp [lookupA, List.find?_cons_of_neg _ (by simp [h] : ¬(p.1 == k) = true), h]

theorem lookupA_append {κ β : Type} [BEq κ] (d1 d2 : List (κ × β)) (k : κ) :
    lookupA (d1 ++ d2) k = (lookupA d1 k).or (lookupA d2 k) := by
  simp only [lookupA, List.find?_append]
  cases List.find? (fun p => p.1 == k) d1 <;> simp

theorem lookupA_overwrite_ne (d : List (Nat × String)) (k q : Nat) (v : String)
    (hqk : q ≠ k) :
    lookupA (d.map (fun p => if p.1 = k then (k, v) else p)) q = lookupA d q := by
  induction d with
  | nil => rfl
  | cons p d ih =>
    by_cases hpk : p.1 = k
    · simp only [List.map_cons, if_pos hpk, lookupA_cons, ih]
      rw [if_neg (by simpa using Ne.symm hqk), if_neg (by rw [hpk]; exact Ne.symm hqk)]
    · simp only [List.map_cons, if_neg hpk, lookupA_cons, ih]

theorem lookupA_overwrite_self (d : List (Nat × String)) (k : Nat) (v : String)
    (h : (lookupA d k).isSome) :
    lookupA (d.map (fun p => if p.1 = k then (k, v) else p)) k = some v := by
  induction d with
  | nil => simp [lookupA] at h
  | cons p d ih =>
    by_cases hpk : p.1 = k
    · simp [List.map_cons, if_pos hpk, lookupA_cons]
    · have hh : (lookupA d k).isSome := by
        rw [lookupA_cons, if_neg hpk] at h
        exact h
      simp only [List.map_cons, if_neg hpk, lookupA_cons, ih hh, if_neg hpk]

theorem lookupA_dictInsert (d : List (Nat × String)) (k : Nat) (v : String) (q : Nat) :
    lookupA (dictInsert d k v) q = if q = k then some v else lookupA d q := by
  unfold dictInsert
  by_cases h : (lookupA d k).isSome
  · by_cases hqk : q = k
    · subst hqk
      simp [h, lookupA_overwrite_self d q v h]
    · simp [h, lookupA_overwrite_ne d k q v hqk, hqk]
  · have hnone : lookupA d k = none := Option.not_isSome_iff_eq_none.mp h
    by_cases hqk : q = k
    · subst hqk
      simp [h, lookupA_append, hnone, lookupA_cons]
    · simp only [h, if_false, lookupA_append, lookupA_cons, if_neg (Ne.symm hqk),
        if_neg hqk, Bool.false_eq_true]
      cases lookupA d q <;> simp [lookupA]

theorem lookupA_foldl_dictInsert (f : Nat → Nat) (g : Nat → String) :
    ∀ (l : List Nat) (d : List (Nat × String)) (q : Nat),
      lookupA (l.foldl (fun d i => dictInsert d (f i) (g i)) d) q =
        match l.reverse.find? (fun i => f i == q) with
        | some i => some (g i)
        | none => lookupA d q := by
  intro l
  induction l with
  | nil => intro d q; rfl
  | cons i l ih =>
    intro d q
    simp only [List.foldl_cons, List.reverse_cons, List.find?_append, ih]
    cases hf : List.find? (fun j => f j == q) l.reverse with
    | some j => simp
    | none =>
      by_cases hq : f i = q
      · simp [List.find?_cons_of_pos _ (by simp [hq] : (f i == q) = true),
          lookupA_dictInsert, hq.symm]
      · have hfi : List.find? (fun j => f j == q) [i] = none := by simp [hq]
        rw [hfi, lookupA_dictInsert, if_neg (fun hc : q = f i => hq hc.symm)]
        rfl

theorem find?_sorted_min :
    ∀ (l : List Nat), l.Sorted (· ≤ ·) → ∀ (p : Nat → Bool) (k : Nat),
      l.find? p = some k → ∀ x ∈ l, p x → k ≤ x := by
  intro l
  induction l with
  | nil => intro _ p k h; cases h
  | cons a l ih =>
    intro hs p k h x hx hpx
    rw [List.sorted_cons] at hs
    by_cases hpa : p a
    · rw [List.find?_cons_of_pos _ hpa] at h
      cases h
      rcases List.mem_cons.mp hx with rfl | hx
      · exact le_refl x
      · exact hs.1 x hx
    · rw [List.find?_cons_of_neg _ hpa] at h
      rcases List.mem_cons.mp hx with rfl | hx
      · exact absurd hpx hpa
      · exact ih hs.2 p k h x hx hpx

theorem lookupA_get_SemKITTI_label_name (lmKeys : List Nat) (lmVal : Nat → Nat)
    (labels : Nat → String) (q : Nat) :
    lookupA (get_SemKITTI_label_name lmKeys lmVal labels) q =
      ((List.insertionSort (· ≤ ·) lmKeys).find? (fun i => lmVal i == q)).map labels := by
  unfold get_SemKITTI_label_name
  rw [lookupA_foldl_dictInsert, List.reverse_reverse]
  cases List.find? (fun i => lmVal i == q) (List.insertionSort (· ≤ ·) lmKeys) <;>
    simp [lookupA]

theorem lookupA_get_nuScenes_label_name (lmKeys : List Nat) (lmVal : Nat → Nat)
    (labels16 : Nat → String) (q : Nat) :
    lookupA (get_nuScenes_label_name lmKeys lmVal labels16) q =
      ((List.insertionSort (· ≤ ·) lmKeys).find? (fun i => lmVal i == q)).map
        (fun i => labels16 (lmVal i)) := by
  unfold get_nuScenes_label_name
  rw [lookupA_foldl_dictInsert, List.reverse_reverse]
  cases List.find? (fun i => lmVal i == q) (List.insertionSort (· ≤ ·) lmKeys) <;>
    simp [lookupA]

/-! ### Claim theorems -/

/-- C4: `SemKITTI2train_single` is deterministic, maps label 0 to 255 and
label k > 0 to k - 1 on `uint8` label arrays, and preserves the array
length; `SemKITTI2train` applied to a list of label arrays maps the
per-array transform over the list in order, and applied to a single array
applies the single-array transform. -/
theorem semKITTI2train_spec :
    (∀ l : List Nat, (∀ x ∈ l, x < 256) →
        SemKITTI2train_single l = l.map (fun x => if x = 0 then 255 else x - 1))
    ∧ (∀ l : List Nat, (SemKITTI2train_single l).length = l.length)
    ∧ (∀ ls : List (List Nat),
        SemKITTI2train (.batch ls) = .batch (ls.map SemKITTI2train_single))
    ∧ (∀ a : List Nat, SemKITTI2train (.single a) = .single (SemKITTI2train_single a)) := by
  refine ⟨?_, ?_, fun ls => rfl, fun a => rfl⟩
  · intro l h
    induction l with
    | nil => rfl
    | cons x l ih =>
      rw [SemKITTI2train_single_cons, List.map_cons,
        ih (fun a ha => h a (List.mem_cons_of_mem _ ha))]
      have hx := h x (List.mem_cons_self x l)
      by_cases hx0 : x = 0
      · subst hx0; rfl
      · have hb : (x == 0) = false := by simp [hx0]
        rw [hb, if_neg hx0]
        simp only [Bool.false_eq_true, if_false, List.cons.injEq, and_true]
        omega
  · intro l
    induction l with
    | nil => rfl
    | cons x l ih => rw [SemKITTI2train_single_cons]; simp [ih]

/-- Witness for C4 at a concrete uint8 label array. -/
theorem semKITTI2train_spec_witness :
    SemKITTI2train_single [0, 5, 255] = [255, 4, 254] :=
  (semKITTI2train_spec.1 [0, 5, 255] (by decide)).trans (by decide)

/-- C5: after a successful `register_dataset` (the name defaulting to the
class's own name when omitted) the registered name resolves through
`get_pc_model_class` to exactly the registered class; registering an
already-present name fails with the duplicate-key assertion, and resolving
an absent name fails with a message enumerating the registered names. -/
theorem registry_spec {α : Type} (reg : List (String × α)) (clsName : String)
    (cls : α) (nm : String) :
    (register_dataset reg clsName cls none = register_dataset reg clsName cls (some clsName))
    ∧ (lookupA reg nm = none →
        register_dataset reg clsName cls (some nm) = .ok (reg ++ [(nm, cls)], cls)
        ∧ get_pc_model_class (reg ++ [(nm, cls)]) nm = .ok cls)
    ∧ ((lookupA reg nm).isSome →
        register_dataset reg clsName cls (some nm) =
          .error ("exist class: " ++ formatRegistry reg))
    ∧ (lookupA reg nm = none →
        get_pc_model_class reg nm = .error ("available class: " ++ formatRegistry reg)) := by
  refine ⟨rfl, fun h => ⟨?_, ?_⟩, fun h => ?_, fun h => ?_⟩
  · unfold register_dataset
    simp [h]
  · unfold get_pc_model_class
    rw [lookupA_append, h]
    simp [lookupA_cons]
  · unfold register_dataset
    simp [h]
  · unfold get_pc_model_class
    rw [h]

/-- Witness for C5: a fresh registration resolves back, a duplicate one and
an unknown lookup fail with the enumerating messages. -/
theorem registry_spec_witness :
    register_dataset ([("A", 1)] : List (String × Nat)) "B" 2 none
        = .ok ([("A", 1), ("B", 2)], 2)
    ∧ get_pc_model_class [("A", 1), ("B", 2)] "B" = .ok 2
    ∧ register_dataset [("A", 1), ("B", 2)] "A" 3 none = .error "exist class: A, B"
    ∧ get_pc_model_class ([("A", 1)] : List (String × Nat)) "C"
        = .error "available class: A" := by
  have hr := registry_spec ([("A", 1)] : List (String × Nat)) "B" (2 : Nat) "B"
  have h2 := hr.2.1 rfl
  have hr2 := registry_spec [("A", 1), ("B", 2)] "A" (3 : Nat) "A"
  have hdup := hr2.2.2.1 rfl
  have hr3 := registry_spec ([("A", 1)] : List (String × Nat)) "C" (0 : Nat) "C"
  exact ⟨hr.1.trans h2.1, h2.2, hr2.1.trans hdup, hr3.2.2.2 rfl⟩

/-- C7: `CycleDense.__getitem__` returns a tuple with no label element:
points of shape (N, 3) alone when `return_ref` is false, and together with
a reference array of shape (N, 1) (same N) when `return_ref` is true. -/
theorem cycleDense_tuple_spec {α : Type} (f : DenseFrame α)
    (hy : f.sensorY.length = f.sensorX.length)
    (hz : f.sensorZ.length = f.sensorX.length)
    (hd : f.distance.length = f.sensorX.length) :
    (∀ rr, (CycleDense_getitem rr f).labels = none)
    ∧ (∀ rr, (CycleDense_getitem rr f).coords.shape = [f.sensorX.length, 3]
        ∧ (CycleDense_getitem rr f).coords.data.length = 3 * f.sensorX.length)
    ∧ (CycleDense_getitem false f).ref = none
    ∧ ∃ b, (CycleDense_getitem true f).ref = some b
        ∧ b.shape = [f.sensorX.length, 1] ∧ b.data.length = f.sensorX.length := by
  refine ⟨fun rr => rfl, fun rr => ⟨rfl, ?_⟩, rfl,
    ⟨⟨[f.distance.length, 1], f.distance⟩, rfl, by rw [hd], hd⟩⟩
  show ((List.zip f.sensorX (List.zip f.sensorY f.sensorZ)).flatMap
      (fun p => [p.1, p.2.1, p.2.2])).length = 3 * f.sensorX.length
  have h3 := length_flatMap3 (fun p : α × α × α => p.1) (fun p => p.2.1)
    (fun p => p.2.2) (f.sensorX.zip (f.sensorY.zip f.sensorZ))
  rw [h3, List.length_zip, List.length_zip, hy, hz]
  simp

/-- Witness for C7 at a concrete two-point frame. -/
theorem cycleDense_tuple_spec_witness :
    (∀ rr, (CycleDense_getitem rr
        (⟨[1, 2], [3, 4], [5, 6], [7, 8], [9, 10], [11, 12]⟩ : DenseFrame Int)).labels
      = none)
    ∧ (∀ rr, (CycleDense_getitem rr
        (⟨[1, 2], [3, 4], [5, 6], [7, 8], [9, 10], [11, 12]⟩ : DenseFrame Int)).coords.shape
          = [2, 3]
        ∧ (CycleDense_getitem rr
        (⟨[1, 2], [3, 4], [5, 6], [7, 8], [9, 10], [11, 12]⟩ : DenseFrame Int)).coords.data.length
          = 3 * 2)
    ∧ (CycleDense_getitem false
        (⟨[1, 2], [3, 4], [5, 6], [7, 8], [9, 10], [11, 12]⟩ : DenseFrame Int)).ref = none
    ∧ ∃ b, (CycleDense_getitem true
        (⟨[1, 2], [3, 4], [5, 6], [7, 8], [9, 10], [11, 12]⟩ : DenseFrame Int)).ref = some b
        ∧ b.shape = [2, 1] ∧ b.data.length = 2 :=
  cycleDense_tuple_spec (⟨[1, 2], [3, 4], [5, 6], [7, 8], [9, 10], [11, 12]⟩ : DenseFrame Int)
    rfl rfl rfl

/-- C10: the `return_ref` constructor defaults differ across variants —
omitting the argument behaves as `False` for `SemKITTI_sk` and
`SemKITTI_nusc` but as `True` for `Dense` and `CycleDense`, and a default
construction stores exactly that value on the dataset object. -/
theorem return_ref_defaults :
    (∀ (y : Option SplitYaml) (fsW : String → List String) (dp : String)
        (iset : Option String),
      SemKITTI_sk_init y fsW dp iset none = SemKITTI_sk_init y fsW dp iset (some false))
    ∧ (∀ (y : Option SplitYaml) (fsW : String → List String) (dp : String)
        (iset : Option String),
      Dense_init y fsW dp iset none = Dense_init y fsW dp iset (some true))
    ∧ (∀ (y : Option SplitYaml) (fsW : String → List String) (dp : String)
        (iset clss : Option String),
      CycleDense_init y fsW dp iset clss none = CycleDense_init y fsW dp iset clss (some true))
    ∧ (∀ (inf : Option (List NuscInfo)) (lmf : Option (List (Nat × Nat))) (dp : String),
      SemKITTI_nusc_init inf lmf dp none = SemKITTI_nusc_init inf lmf dp (some false))
    ∧ (SemKITTI_sk_init (some ⟨[], [("train", [])]⟩) (fun _ => []) "" none none
        = .ok ⟨false, [], "train", []⟩)
    ∧ (Dense_init (some ⟨[], [("train", [])]⟩) (fun _ => []) "" none none
        = .ok ⟨true, [], "train", []⟩)
    ∧ (CycleDense_init (some ⟨[], [("trainclear", [])]⟩) (fun _ => []) "" none none none
        = .ok ⟨true, [], "train", []⟩)
    ∧ (SemKITTI_nusc_init (some []) (some []) "" none = .ok ⟨false, [], [], ""⟩) :=
  ⟨fun y fsW dp iset => rfl, fun y fsW dp iset => rfl, fun y fsW dp iset clss => rfl,
   fun inf lmf dp => rfl, rfl, rfl, rfl, rfl⟩

/-- C8: in the test split, `SemKITTI_sk.__getitem__` and `Dense.__getitem__`
are independent of the label file / stored label channel contents and of
the learning map, and return a fabricated all-zero label array derived
from the loaded point data. -/
theorem test_split_fabricates_zero_labels :
    (∀ (α : Type) (rr : Bool) (lm lm2 : Nat → Option Nat) (raw : List (Pt4 α))
        (L L2 : List Int),
      SemKITTI_sk_getitem "test" rr lm raw L = SemKITTI_sk_getitem "test" rr lm2 raw L2)
    ∧ (∀ (α : Type) (rr : Bool) (lm : Nat → Option Nat) (raw : List (Pt4 α))
        (L : List Int),
      ∃ s, SemKITTI_sk_getitem "test" rr lm raw L = .ok s
        ∧ s.labels = some ⟨[raw.length, 1], List.replicate raw.length 0⟩)
    ∧ (∀ (α : Type) (rr : Bool) (lm lm2 : Nat → Option Nat) (xc yc zc dc ic : List α)
        (lab1 lab2 : List Int),
      Dense_getitem "test" rr lm ⟨xc, yc, zc, dc, ic, lab1⟩
        = Dense_getitem "test" rr lm2 ⟨xc, yc, zc, dc, ic, lab2⟩)
    ∧ (∀ (α : Type) (rr : Bool) (lm : Nat → Option Nat) (f : DenseFrame α),
      f.sensorX.length ≠ 0 →
      ∃ s, Dense_getitem "test" rr lm f = .ok s
        ∧ s.labels = some ⟨[6, 1], List.replicate 6 0⟩) := by
  refine ⟨fun α rr lm lm2 raw L L2 => rfl,
    fun α rr lm raw L => ⟨_, rfl, rfl⟩,
    fun α rr lm lm2 xc yc zc dc ic lab1 lab2 => rfl,
    fun α rr lm f h => ?_⟩
  obtain ⟨xc, yc, zc, dc, ic, lab⟩ := f
  cases xc with
  | nil => exact absurd rfl h
  | cons a l => exact ⟨_, rfl, rfl⟩

/-- Witness for C8 at a concrete nonempty frame. -/
theorem test_split_fabricates_zero_labels_witness :
    ∃ s, Dense_getitem "test" true (fun _ => none)
        (⟨[1, 2], [3, 4], [5, 6], [7, 8], [9, 10], [11, 12]⟩ : DenseFrame Int) = .ok s
      ∧ s.labels = some ⟨[6, 1], List.replicate 6 0⟩ :=
  test_split_fabricates_zero_labels.2.2.2 Int true (fun _ => none)
    (⟨[1, 2], [3, 4], [5, 6], [7, 8], [9, 10], [11, 12]⟩ : DenseFrame Int) (by decide)

/-- C3 (amended): an unrecognized `imageset` (for `SemKITTI_sk` / `Dense`)
or `imageset+clss` combination (for `CycleDense`) makes the constructor
fail with the split-validation error, for every data root and every
directory-walk oracle — in particular even when the data root does not
exist — but only after the label-mapping YAML has been opened and parsed. -/
theorem unrecognized_split_rejected :
    (∀ (y : SplitYaml) (fsW : String → List String) (dp : String) (iset : String)
        (rr : Option Bool),
      iset ≠ "train" → iset ≠ "val" → iset ≠ "test" →
      SemKITTI_sk_init (some y) fsW dp (some iset) rr
        = .error "Split must be train/val/test")
    ∧ (∀ (y : SplitYaml) (fsW : String → List String) (dp : String) (iset : String)
        (rr : Option Bool),
      iset ≠ "train" → iset ≠ "val" → iset ≠ "test" →
      Dense_init (some y) fsW dp (some iset) rr = .error "Split must be train/val/test")
    ∧ (∀ (y : SplitYaml) (fsW : String → List String) (dp : String) (iset clss : String)
        (rr : Option Bool),
      iset ++ clss ∉ (["trainclear", "trainrain", "trainfog", "valclear", "valrain",
        "valfog", "testclear", "testrain", "testfog"] : List String) →
      CycleDense_init (some y) fsW dp (some iset) (some clss) rr
        = .error "Split must be train/val/test with class clear/rain/fog") := by
  refine ⟨fun y fsW dp iset rr h1 h2 h3 => ?_, fun y fsW dp iset rr h1 h2 h3 => ?_,
    fun y fsW dp iset clss rr h => ?_⟩
  · simp [SemKITTI_sk_init, h1, h2, h3]
  · simp [Dense_init, h1, h2, h3]
  · simp only [List.mem_cons, List.not_mem_nil, or_false, not_or] at h
    obtain ⟨h1, h2, h3, h4, h5, h6, h7, h8, h9⟩ := h
    simp [CycleDense_init, h1, h2, h3, h4, h5, h6, h7, h8, h9]

/-- C3 counterexample: with an unreadable label-mapping file the
constructor fails with `FileNotFoundError` even though the split value is
unrecognized, so the split error is not raised before all file I/O. -/
theorem unrecognized_split_rejected_cex :
    SemKITTI_sk_init none (fun _ => []) "/data" (some "bogus") none
        = .error "FileNotFoundError"
    ∧ ("FileNotFoundError" : String) ≠ "Split must be train/val/test" :=
  ⟨rfl, by decide⟩

/-- Witness for C3 at a concrete bogus split with a nonexistent data root. -/
theorem unrecognized_split_rejected_witness :
    SemKITTI_sk_init (some ⟨[], []⟩) (fun _ => []) "/missing" (some "bogus") none
      = .error "Split must be train/val/test"
    ∧ CycleDense_init (some ⟨[], []⟩) (fun _ => []) "/missing" (some "bogus")
        (some "clear") none
      = .error "Split must be train/val/test with class clear/rain/fog" :=
  ⟨unrecognized_split_rejected.1 ⟨[], []⟩ (fun _ => []) "/missing" "bogus" none
      (by decide) (by decide) (by decide),
   unrecognized_split_rejected.2.2 ⟨[], []⟩ (fun _ => []) "/missing" "bogus" "clear" none
      (by decide)⟩

/-- C9: with `imageset = 'val'`, `SemKITTI_sk` and `Dense` take the split
list from the YAML key `'valid'`, not `'val'`; when `'valid'` is absent —
in particular when the split section uses the key `'val'` instead —
construction fails with a `KeyError` on `'valid'`. -/
theorem val_split_uses_valid_key (y : SplitYaml) (fsW : String → List String)
    (dp : String) (rr : Option Bool) :
    (∀ L, lookupA y.split "valid" = some L →
      SemKITTI_sk_init (some y) fsW dp (some "val") rr
        = .ok ⟨rr.getD false, y.learning_map, "val",
            L.flatMap (fun i => fsW (dp ++ "/" ++ zfill2 i ++ "/velodyne"))⟩
      ∧ Dense_init (some y) fsW dp (some "val") rr
        = .ok ⟨rr.getD true, y.learning_map, "val",
            L.flatMap (fun i => fsW (dp ++ "/" ++ i))⟩)
    ∧ (lookupA y.split "valid" = none →
      SemKITTI_sk_init (some y) fsW dp (some "val") rr = .error "KeyError: valid"
      ∧ Dense_init (some y) fsW dp (some "val") rr = .error "KeyError: valid") := by
  have hv1 : ("val" : String) ≠ "train" := by decide
  constructor
  · intro L hL
    constructor
    · simp [SemKITTI_sk_init, hv1, dictGet, hL]
    · simp [Dense_init, hv1, dictGet, hL]
  · intro hL
    constructor
    · simp [SemKITTI_sk_init, hv1, dictGet, hL]
    · simp [Dense_init, hv1, dictGet, hL]

/-- Witness for C9: a split section keyed `'valid'` is found, one keyed
`'val'` is not. -/
theorem val_split_uses_valid_key_witness :
    (SemKITTI_sk_init (some ⟨[], [("valid", ["3"])]⟩) (fun s => [s ++ "/f.bin"]) "/d"
        (some "val") none
      = .ok ⟨false, [], "val", ["/d/03/velodyne/f.bin"]⟩)
    ∧ (SemKITTI_sk_init (some ⟨[], [("val", ["3"])]⟩) (fun _ => []) "/d"
        (some "val") none
      = .error "KeyError: valid") := by
  have h1 := (val_split_uses_valid_key ⟨[], [("valid", ["3"])]⟩
    (fun s => [s ++ "/f.bin"]) "/d" none).1 ["3"] rfl
  have h2 := (val_split_uses_valid_key ⟨[], [("val", ["3"])]⟩
    (fun _ => []) "/d" none).2 rfl
  exact ⟨h1.1.trans (by rfl), h2.1⟩


/-- C2: in non-test splits of `SemKITTI_sk` and `Dense`, and in
`SemKITTI_nusc`, every raw label is masked to its low 16 bits and the
masked value is looked up in the learning map (for the uint8-valued
nuScenes label files the mask is the identity, so the direct lookup the
code performs coincides with the masked lookup); a raw id whose masked
value is absent from the map makes the whole access fail with `KeyError`,
with no default substitution and no partial tuple. -/
theorem label_remap_spec (α : Type) (iset : String) (rr : Bool)
    (lm : Nat → Option Nat) (hne : iset ≠ "test") :
    (∀ (raw : List (Pt4 α)) (labelFile : List Int),
      ((∀ v ∈ labelFile, (lm (mask16 v)).isSome) →
        ∃ s, SemKITTI_sk_getitem iset rr lm raw labelFile = .ok s
          ∧ s.labels = some ⟨[labelFile.length, 1],
              labelFile.map (fun v => toUInt8 ((lm (mask16 v)).getD 0))⟩)
      ∧ ((∃ v ∈ labelFile, lm (mask16 v) = none) →
        (SemKITTI_sk_getitem iset rr lm raw labelFile).isOk = false))
    ∧ (∀ f : DenseFrame α,
      ((∀ v ∈ f.labels, (lm (mask16 v)).isSome) →
        ∃ s, Dense_getitem iset rr lm f = .ok s
          ∧ s.labels = some ⟨[f.labels.length, 1],
              f.labels.map (fun v => toUInt8 ((lm (mask16 v)).getD 0))⟩)
      ∧ ((∃ v ∈ f.labels, lm (mask16 v) = none) →
        (Dense_getitem iset rr lm f).isOk = false))
    ∧ (∀ (labF : List Nat) (pts : List (Pt5 α)), (∀ v ∈ labF, v < 256) →
      ((∀ v ∈ labF, (lm (v % 65536)).isSome) →
        ∃ s, SemKITTI_nusc_getitem rr lm labF pts = .ok s
          ∧ s.labels = some ⟨[labF.length, 1],
              labF.map (fun v => toUInt8 ((lm (v % 65536)).getD 0))⟩)
      ∧ ((∃ v ∈ labF, lm (v % 65536) = none) →
        (SemKITTI_nusc_getitem rr lm labF pts).isOk = false)) := by
  refine ⟨fun raw labelFile => ⟨fun htot => ?_, fun hmiss => ?_⟩,
    fun f => ⟨fun htot => ?_, fun hmiss => ?_⟩,
    fun labF pts h256 => ?_⟩
  · have hm := mapLabels_ok_of_total lm (labelFile.map mask16) (by
      intro x hx
      obtain ⟨v, hv, rfl⟩ := List.mem_map.mp hx
      exact htot v hv)
    refine ⟨⟨⟨[raw.length, 3], raw.flatMap fun p => [p.x, p.y, p.z]⟩,
      some ⟨[labelFile.length, 1],
        labelFile.map (fun v => toUInt8 ((lm (mask16 v)).getD 0))⟩,
      if rr then some ⟨[raw.length], raw.map Pt4.r⟩ else none⟩, ?_, rfl⟩
    simp [SemKITTI_sk_getitem, hne, hm, List.map_map, Function.comp_def]
  · obtain ⟨v, hv, hnone⟩ := hmiss
    obtain ⟨e, he⟩ := mapLabels_error_of_missing lm (labelFile.map mask16)
      ⟨mask16 v, List.mem_map_of_mem _ hv, hnone⟩
    simp [SemKITTI_sk_getitem, hne, he, Except.isOk, Except.toBool]
  · have hm := mapLabels_ok_of_total lm (f.labels.map mask16) (by
      intro x hx
      obtain ⟨v, hv, rfl⟩ := List.mem_map.mp hx
      exact htot v hv)
    refine ⟨⟨⟨[f.sensorX.length, 3],
        (f.sensorX.zip (f.sensorY.zip f.sensorZ)).flatMap fun p => [p.1, p.2.1, p.2.2]⟩,
      some ⟨[f.labels.length, 1],
        f.labels.map (fun v => toUInt8 ((lm (mask16 v)).getD 0))⟩,
      if rr then some ⟨[f.distance.length, 1], f.distance⟩ else none⟩, ?_, rfl⟩
    simp [Dense_getitem, hne, hm, List.map_map, Function.comp_def]
  · obtain ⟨v, hv, hnone⟩ := hmiss
    obtain ⟨e, he⟩ := mapLabels_error_of_missing lm (f.labels.map mask16)
      ⟨mask16 v, List.mem_map_of_mem _ hv, hnone⟩
    simp [Dense_getitem, hne, he, Except.isOk, Except.toBool]
  · have hmask : ∀ v ∈ labF, v % 65536 = v := fun v hv =>
      Nat.mod_eq_of_lt (lt_trans (h256 v hv) (by norm_num))
    constructor
    · intro htot
      have hm := mapLabels_ok_of_total lm labF (by
        intro x hx
        have hs := htot x hx
        rwa [hmask x hx] at hs)
      refine ⟨⟨⟨[pts.length, 3], pts.flatMap fun p => [p.x, p.y, p.z]⟩,
        some ⟨[labF.length, 1],
          labF.map (fun v => toUInt8 ((lm (v % 65536)).getD 0))⟩,
        if rr then some ⟨[pts.length], pts.map Pt5.r⟩ else none⟩, ?_, rfl⟩
      simp only [SemKITTI_nusc_getitem, hm, List.map_map, Except.ok.injEq,
        Sample.mk.injEq, Option.some.injEq, NDArray.mk.injEq, true_and, and_true]
      exact List.map_congr_left (fun v hv => by
        simp [Function.comp_def, hmask v hv])
    · intro hmiss
      obtain ⟨v, hv, hnone⟩ := hmiss
      rw [hmask v hv] at hnone
      obtain ⟨e, he⟩ := mapLabels_error_of_missing lm labF ⟨v, hv, hnone⟩
      simp [SemKITTI_nusc_getitem, he, Except.isOk, Except.toBool]

/-- Witness for C2: raw id 65537 (instance bits set) masks to 1 and maps to
7; raw id 2 is absent from the map and the access fails. -/
theorem label_remap_spec_witness :
    (∃ s, SemKITTI_sk_getitem "train" false (fun n => if n = 1 then some 7 else none)
        [(⟨10, 20, 30, 40⟩ : Pt4 Int)] [65537] = .ok s
      ∧ s.labels = some ⟨[1, 1], [7]⟩)
    ∧ (SemKITTI_sk_getitem "train" false (fun n => if n = 1 then some 7 else none)
        [(⟨10, 20, 30, 40⟩ : Pt4 Int)] [2]).isOk = false := by
  have h := (label_remap_spec Int "train" false
    (fun n => if n = 1 then some 7 else none) (by decide)).1
  have h1 := (h [(⟨10, 20, 30, 40⟩ : Pt4 Int)] [65537]).1 (by decide)
  have h2 := (h [(⟨10, 20, 30, 40⟩ : Pt4 Int)] [2]).2
    ⟨2, by decide, by decide⟩
  obtain ⟨s, hs, hl⟩ := h1
  exact ⟨⟨s, hs, hl.trans (by rfl)⟩, h2⟩

/-- C1 (amended): for every variant that returns labels, a successful
access yields a coordinate array of shape (N, 3) and a label array of
shape (N, 1) with the same leading N, provided the label source carries
one value per point — except that in the test split of `Dense` the
fabricated label array has shape (6, 1) regardless of N.  Under
`return_ref`, the reference element has shape (N, 1) in `Dense` but is the
1-D slice of shape (N,) in `SemKITTI_sk` and `SemKITTI_nusc`. -/
theorem sample_shape_spec (α : Type) (rr : Bool) (lm : Nat → Option Nat) :
    (∀ (iset : String) (raw : List (Pt4 α)) (labelFile : List Int),
      iset ≠ "test" → labelFile.length = raw.length →
      (∀ v ∈ labelFile, (lm (mask16 v)).isSome) →
      ∃ s, SemKITTI_sk_getitem iset rr lm raw labelFile = .ok s
        ∧ s.coords.shape = [raw.length, 3]
        ∧ s.coords.data.length = 3 * raw.length
        ∧ (∃ a, s.labels = some a ∧ a.shape = [raw.length, 1]
            ∧ a.data.length = raw.length)
        ∧ (rr = true → ∃ b, s.ref = some b ∧ b.shape = [raw.length])
        ∧ (rr = false → s.ref = none))
    ∧ (∀ (raw : List (Pt4 α)) (labelFile : List Int),
      ∃ s, SemKITTI_sk_getitem "test" rr lm raw labelFile = .ok s
        ∧ s.coords.shape = [raw.length, 3]
        ∧ (∃ a, s.labels = some a ∧ a.shape = [raw.length, 1])
        ∧ (rr = true → ∃ b, s.ref = some b ∧ b.shape = [raw.length]))
    ∧ (∀ (iset : String) (f : DenseFrame α),
      iset ≠ "test" →
      f.sensorY.length = f.sensorX.length → f.sensorZ.length = f.sensorX.length →
      f.distance.length = f.sensorX.length → f.labels.length = f.sensorX.length →
      (∀ v ∈ f.labels, (lm (mask16 v)).isSome) →
      ∃ s, Dense_getitem iset rr lm f = .ok s
        ∧ s.coords.shape = [f.sensorX.length, 3]
        ∧ s.coords.data.length = 3 * f.sensorX.length
        ∧ (∃ a, s.labels = some a ∧ a.shape = [f.sensorX.length, 1]
            ∧ a.data.length = f.sensorX.length)
        ∧ (rr = true → ∃ b, s.ref = some b ∧ b.shape = [f.sensorX.length, 1])
        ∧ (rr = false → s.ref = none))
    ∧ (∀ f : DenseFrame α, f.sensorX.length ≠ 0 →
      ∃ s, Dense_getitem "test" rr lm f = .ok s
        ∧ s.coords.shape = [f.sensorX.length, 3]
        ∧ (∃ a, s.labels = some a ∧ a.shape = [6, 1]))
    ∧ (∀ (labF : List Nat) (pts : List (Pt5 α)),
      labF.length = pts.length →
      (∀ v ∈ labF, (lm v).isSome) →
      ∃ s, SemKITTI_nusc_getitem rr lm labF pts = .ok s
        ∧ s.coords.shape = [pts.length, 3]
        ∧ s.coords.data.length = 3 * pts.length
        ∧ (∃ a, s.labels = some a ∧ a.shape = [pts.length, 1]
            ∧ a.data.length = pts.length)
        ∧ (rr = true → ∃ b, s.ref = some b ∧ b.shape = [pts.length])
        ∧ (rr = false → s.ref = none)) := by
  refine ⟨fun iset raw labelFile hne hlen htot => ?_,
    fun raw labelFile => ?_,
    fun iset f hne hy hz hd hl htot => ?_,
    fun f hn => ?_,
    fun labF pts hlen htot => ?_⟩
  · have hm := mapLabels_ok_of_total lm (labelFile.map mask16) (by
      intro x hx
      obtain ⟨v, hv, rfl⟩ := List.mem_map.mp hx
      exact htot v hv)
    refine ⟨⟨⟨[raw.length, 3], raw.flatMap fun p => [p.x, p.y, p.z]⟩,
      some ⟨[labelFile.length, 1],
        labelFile.map (fun v => toUInt8 ((lm (mask16 v)).getD 0))⟩,
      if rr then some ⟨[raw.length], raw.map Pt4.r⟩ else none⟩,
      by simp [SemKITTI_sk_getitem, hne, hm, List.map_map, Function.comp_def],
      rfl, length_flatMap3 Pt4.x Pt4.y Pt4.z raw,
      ⟨_, rfl, by rw [hlen], by simp [hlen]⟩,
      fun h => ?_, fun h => ?_⟩
    · subst h; exact ⟨_, rfl, rfl⟩
    · subst h; rfl
  · refine ⟨⟨⟨[raw.length, 3], raw.flatMap fun p => [p.x, p.y, p.z]⟩,
      some ⟨[raw.length, 1], List.replicate raw.length 0⟩,
      if rr then some ⟨[raw.length], raw.map Pt4.r⟩ else none⟩,
      rfl, rfl, ⟨_, rfl, rfl⟩, fun h => ?_⟩
    subst h; exact ⟨_, rfl, rfl⟩
  · have hm := mapLabels_ok_of_total lm (f.labels.map mask16) (by
      intro x hx
      obtain ⟨v, hv, rfl⟩ := List.mem_map.mp hx
      exact htot v hv)
    refine ⟨⟨⟨[f.sensorX.length, 3],
        (f.sensorX.zip (f.sensorY.zip f.sensorZ)).flatMap fun p => [p.1, p.2.1, p.2.2]⟩,
      some ⟨[f.labels.length, 1],
        f.labels.map (fun v => toUInt8 ((lm (mask16 v)).getD 0))⟩,
      if rr then some ⟨[f.distance.length, 1], f.distance⟩ else none⟩,
      by simp [Dense_getitem, hne, hm, List.map_map, Function.comp_def],
      rfl, ?_,
      ⟨_, rfl, by rw [hl], by simp [hl]⟩,
      fun h => ?_, fun h => ?_⟩
    · have h3 := length_flatMap3 (fun p : α × α × α => p.1) (fun p => p.2.1)
        (fun p => p.2.2) (f.sensorX.zip (f.sensorY.zip f.sensorZ))
      rw [h3, List.length_zip, List.length_zip, hy, hz]
      simp
    · subst h
      exact ⟨⟨[f.distance.length, 1], f.distance⟩, rfl, by rw [hd]⟩
    · subst h; rfl
  · obtain ⟨xc, yc, zc, dc, ic, lab⟩ := f
    cases xc with
    | nil => exact absurd rfl hn
    | cons a l => exact ⟨_, rfl, rfl, ⟨_, rfl, rfl⟩⟩
  · have hm := mapLabels_ok_of_total lm labF htot
    refine ⟨⟨⟨[pts.length, 3], pts.flatMap fun p => [p.x, p.y, p.z]⟩,
      some ⟨[labF.length, 1], labF.map (fun v => toUInt8 ((lm v).getD 0))⟩,
      if rr then some ⟨[pts.length], pts.map Pt5.r⟩ else none⟩,
      by simp [SemKITTI_nusc_getitem, hm, List.map_map, Function.comp_def],
      rfl, length_flatMap3 Pt5.x Pt5.y Pt5.z pts,
      ⟨_, rfl, by rw [hlen], by simp [hlen]⟩,
      fun h => ?_, fun h => ?_⟩
    · subst h; exact ⟨_, rfl, rfl⟩
    · subst h; rfl

/-- C1 counterexample: with `return_ref` set, `SemKITTI_sk.__getitem__`
returns the reference channel as the 1-D slice `raw_data[:, 3]` of shape
(N,), not (N, 1). -/
theorem sample_shape_spec_cex :
    (SemKITTI_sk_getitem "train" true (fun n => if n = 1 then some 9 else none)
        [(⟨10, 20, 30, 40⟩ : Pt4 Int)] [1])
      = .ok ⟨⟨[1, 3], [10, 20, 30]⟩, some ⟨[1, 1], [9]⟩, some ⟨[1], [40]⟩⟩
    ∧ ([1] : List Nat) ≠ [1, 1] :=
  ⟨rfl, by decide⟩

/-- Witness for C1 at concrete one-point and two-point samples. -/
theorem sample_shape_spec_witness :
    (∃ s, SemKITTI_sk_getitem "train" false (fun n => if n = 1 then some 9 else none)
        [(⟨10, 20, 30, 40⟩ : Pt4 Int)] [1] = .ok s
      ∧ s.coords.shape = [1, 3]
      ∧ (∃ a, s.labels = some a ∧ a.shape = [1, 1] ∧ a.data.length = 1))
    ∧ (∃ s, Dense_getitem "test" false (fun _ => none)
        (⟨[1, 2], [3, 4], [5, 6], [7, 8], [9, 10], [11, 12]⟩ : DenseFrame Int) = .ok s
      ∧ (∃ a, s.labels = some a ∧ a.shape = [6, 1])) := by
  have h1 := (sample_shape_spec Int false (fun n => if n = 1 then some 9 else none)).1
    "train" [(⟨10, 20, 30, 40⟩ : Pt4 Int)] [1] (by decide) rfl (by decide)
  have h4 := (sample_shape_spec Int false (fun _ => none)).2.2.2.1
    (⟨[1, 2], [3, 4], [5, 6], [7, 8], [9, 10], [11, 12]⟩ : DenseFrame Int) (by decide)
  obtain ⟨s, hs, hc, -, hl, -, -⟩ := h1
  obtain ⟨t, ht, -, hta⟩ := h4
  exact ⟨⟨s, hs, hc, hl⟩, ⟨t, ht, hta⟩⟩

/-- C6 (amended): both label-name helpers iterate the raw ids in descending
order; `get_SemKITTI_label_name` stores under each mapped id the textual
name of the raw id, so the lowest raw id mapping to a given training label
wins; `get_nuScenes_label_name` instead stores `labels_16` of the mapped
id itself, so all duplicates store that same mapped-id name. -/
theorem label_name_table_spec (lmKeys : List Nat) (lmVal : Nat → Nat)
    (labels labels16 : Nat → String) (r : Nat) (hr : r ∈ lmKeys) :
    (∃ r0, r0 ∈ lmKeys ∧ lmVal r0 = lmVal r
      ∧ (∀ q ∈ lmKeys, lmVal q = lmVal r → r0 ≤ q)
      ∧ lookupA (get_SemKITTI_label_name lmKeys lmVal labels) (lmVal r)
          = some (labels r0))
    ∧ lookupA (get_nuScenes_label_name lmKeys lmVal labels16) (lmVal r)
        = some (labels16 (lmVal r)) := by
  have hperm := List.perm_insertionSort (· ≤ ·) lmKeys
  have hsort := List.sorted_insertionSort (· ≤ ·) lmKeys
  have hrs : r ∈ List.insertionSort (· ≤ ·) lmKeys := hperm.mem_iff.mpr hr
  have hfind : ((List.insertionSort (· ≤ ·) lmKeys).find?
      (fun i => lmVal i == lmVal r)).isSome := by
    rw [List.find?_isSome]
    exact ⟨r, hrs, by simp⟩
  obtain ⟨r0, hr0⟩ := Option.isSome_iff_exists.mp hfind
  have hr0mem : r0 ∈ lmKeys := hperm.mem_iff.mp (List.mem_of_find?_eq_some hr0)
  have hr0val : lmVal r0 = lmVal r := by simpa using List.find?_some hr0
  have hmin : ∀ q ∈ lmKeys, lmVal q = lmVal r → r0 ≤ q := by
    intro q hq hqv
    exact find?_sorted_min (List.insertionSort (· ≤ ·) lmKeys) hsort
      (fun i => lmVal i == lmVal r) r0 hr0 q (hperm.mem_iff.mpr hq) (by simp [hqv])
  refine ⟨⟨r0, hr0mem, hr0val, hmin, ?_⟩, ?_⟩
  · rw [lookupA_get_SemKITTI_label_name, hr0]
    rfl
  · rw [lookupA_get_nuScenes_label_name, hr0]
    simp [hr0val]

/-- C6 counterexample: with raw ids 1 and 2 both mapping to 0 and the name
table n ↦ "m" ++ n, the nuScenes helper stores "m0" — the mapped id's
name — under key 0, not the lowest raw id's name "m1". -/
theorem label_name_table_spec_cex :
    lookupA (get_nuScenes_label_name [1, 2] (fun _ => 0)
        (fun n => "m" ++ toString n)) 0 = some "m0"
    ∧ ("m0" : String) ≠ "m1" :=
  ⟨rfl, by decide⟩

/-- Witness for C6: raw ids 1 and 2 map to 0, raw id 3 maps to 1; the
SemKITTI table stores "raw1" (lowest raw id) under 0, the nuScenes table
stores "m0" (mapped id's name). -/
theorem label_name_table_spec_witness :
    lookupA (get_SemKITTI_label_name [1, 2, 3] (fun n => if n = 3 then 1 else 0)
        (fun n => "raw" ++ toString n)) 0 = some "raw1"
    ∧ lookupA (get_nuScenes_label_name [1, 2, 3] (fun n => if n = 3 then 1 else 0)
        (fun n => "m" ++ toString n)) 0 = some "m0" := by
  have h := label_name_table_spec [1, 2, 3] (fun n => if n = 3 then 1 else 0)
    (fun n => "raw" ++ toString n) (fun n => "m" ++ toString n) 1 (by decide)
  obtain ⟨⟨r0, hmem, hval, hmin, hlook⟩, hnu⟩ := h
  have hr01 : r0 = 1 := by
    have hle := hmin 1 (by decide) rfl
    simp only [List.mem_cons, List.not_mem_nil, or_false] at hmem
    have : r0 ≠ 3 := by
      intro h3
      rw [h3] at hval
      simp at hval
    omega
  rw [hr01] at hlook
  exact ⟨hlook, hnu⟩
